import Mathlib

/-!
# govix `helper.c`: the C shim between the VIX job API and the Go host

A shallow embedding of `helper.c` / `helper.h`.

* The VIX library (`VixJob_Wait`, `VixJob_GetNthProperties`, `Vix_GetProperties`,
  `Vix_GetErrorText`, `Vix_FreeBuffer`), the cgo-exported `go_callback_char` and libc's
  `printf` are not part of the shim.  They are the fields of `Vix σ`, state transformers
  over an arbitrary world state `σ`; every helper takes such a `Vix σ` as its first argument.
* A variadic argument list is a `List VixArg`, in the order written in the C call.
* An output pointer is modelled by the place it designates (`Dest`) together with the
  pointee type the C declaration gives it (`CType`); a native call returns its error code
  and the list of stores it performed through the output pointers it was given.
* `Vix.traced` instruments any `Vix σ` so that every call crossing the boundary is
  appended to a log; statements about "which calls, how often, in which order" are
  statements about that log.
* The closed native engine is described by the spec only; `specVix` is that description,
  used where a statement is about what the engine answers (index bounds, decoded values).
* `alloc_vm_pwd_proplist`, `get_property` and `get_vm_url` are one-line forwards that no
  statement below concerns; they are left out.
-/

set_option linter.unusedVariables false

namespace Govix

/-! ## Data model -/

/-- `VixHandle` is a C `int`. -/
abbrev VixHandle := Int

/-- `VixError` is a C `uint64`. -/
abbrev VixError := Nat

/-- `VixEventType` is a C `int`. -/
abbrev VixEventType := Int

/-- The value of a C pointer. -/
abbrev Addr := Int

/-- The null pointer. -/
def NULL : Addr := 0

/-- Modelled from the spec: `vix.h` is not among the sources; `VIX_OK` is the native code of
success (0 in the VIX header). -/
def VIX_OK : VixError := 0

/-- Modelled from the spec: `vix.h` is not among the sources; the event-type tag of an
"item found" event (8 in the VIX header). -/
def VIX_EVENTTYPE_FIND_ITEM : VixEventType := 8

/-- Modelled from the spec: `vix.h` is not among the sources; the event-type tag of a
progress report (3 in the VIX header).  Used only to build example event sequences. -/
def VIX_EVENTTYPE_JOB_PROGRESS : VixEventType := 3

/-- Modelled from the spec: `vix.h` (the property catalogue) is not among the sources.  A
property identifier is "an enumerated tag identifying a named field"; the catalogue is
opaque, so each identifier named by `helper.c` (and `VIX_PROPERTY_JOB_RESULT_HANDLE`, which
callers pass to `get_vix_handle`) is one distinct tag. -/
inductive VixPropertyID
  | VIX_PROPERTY_NONE
  | VIX_PROPERTY_VM_ENCRYPTION_PASSWORD
  | VIX_PROPERTY_JOB_RESULT_HANDLE
  | VIX_PROPERTY_JOB_RESULT_GUEST_OBJECT_EXISTS
  | VIX_PROPERTY_JOB_RESULT_GUEST_PROGRAM_ELAPSED_TIME
  | VIX_PROPERTY_JOB_RESULT_GUEST_PROGRAM_EXIT_CODE
  | VIX_PROPERTY_JOB_RESULT_ITEM_NAME
  | VIX_PROPERTY_JOB_RESULT_SHARED_FOLDER_COUNT
  | VIX_PROPERTY_JOB_RESULT_SHARED_FOLDER_HOST
  | VIX_PROPERTY_JOB_RESULT_SHARED_FOLDER_FLAGS
  | VIX_PROPERTY_JOB_RESULT_PROCESS_ID
  | VIX_PROPERTY_JOB_RESULT_PROCESS_OWNER
  | VIX_PROPERTY_JOB_RESULT_PROCESS_COMMAND
  | VIX_PROPERTY_JOB_RESULT_FILE_FLAGS
  | VIX_PROPERTY_JOB_RESULT_PROCESS_START_TIME
  | VIX_PROPERTY_JOB_RESULT_VM_VARIABLE_STRING
  | VIX_PROPERTY_JOB_RESULT_PROCESS_BEING_DEBUGGED
  | VIX_PROPERTY_JOB_RESULT_SCREEN_IMAGE_DATA
  | VIX_PROPERTY_JOB_RESULT_FILE_SIZE
  | VIX_PROPERTY_JOB_RESULT_FILE_MOD_TIME
  | VIX_PROPERTY_FOUND_ITEM_LOCATION
  deriving DecidableEq, Repr

open VixPropertyID

/-- The pointee type of an output pointer, as declared in `helper.c` / `helper.h`:
`int* p` has pointee `int`, `char* p` has pointee `char`, `char** p` has pointee `charp`,
`Bool* p` has pointee `bool`, `VixHandle* p` has pointee `handle`. -/
inductive CType
  | int
  | int64
  | uint64
  | bool
  | char
  | charp
  | handle
  deriving DecidableEq, Repr

/-- Width in bits of a slot of the given C type (LP64: `int` and `VixHandle` are 32 bits,
`Bool` and `char` one byte, a pointer 64 bits). -/
def CType.bits : CType → Nat
  | .int => 32
  | .int64 => 64
  | .uint64 => 64
  | .bool => 8
  | .char => 8
  | .charp => 64
  | .handle => 32

/-- Whether the C type is a signed integer type. -/
def CType.signed : CType → Bool
  | .int => true
  | .int64 => true
  | .uint64 => false
  | .bool => true
  | .char => true
  | .charp => false
  | .handle => true

/-- The value a slot of type `t` holds after `v` has been delivered to it: `v` reduced to
the width of the slot (two's complement for the signed types). -/
def CType.hold (t : CType) (v : Int) : Int :=
  if t.signed then (v + 2 ^ (t.bits - 1)) % 2 ^ t.bits - 2 ^ (t.bits - 1)
  else v % 2 ^ t.bits

/-- The place an output pointer designates: memory handed in by the caller (the value of
a pointer parameter), or a local variable of the helper itself (`&url`). -/
inductive Dest
  | mem (p : Addr)
  | var (name : String)
  deriving DecidableEq, Repr

/-- One argument of a variadic native call: a property identifier, or an output pointer
with its declared pointee type. -/
inductive VixArg
  | prop (id : VixPropertyID)
  | out (pointee : CType) (d : Dest)
  deriving DecidableEq, Repr

/-- What a native property call hands back: its error code, and the stores it performed
through the output pointers. -/
structure Ret where
  err : VixError
  stores : List (Dest × Int)
  deriving DecidableEq, Repr

/-- The content of the place `d` after the stores `st`, when it held `old` before
(the last store to `d` wins; no store leaves `old`). -/
def loadAfter (st : List (Dest × Int)) (d : Dest) (old : Int) : Int :=
  st.foldl (fun cur w => if w.1 = d then w.2 else cur) old

/-- The functions `helper.c` calls and does not define: the VIX library, the cgo-exported
host callback and `printf`, each a transformer of the world state `σ`.  `Vix_GetErrorText`
yields `none` for a null `const char*`; `printf` receives the format and its single `%s`
argument. -/
structure Vix (σ : Type) where
  VixJob_Wait : VixHandle → List VixArg → σ → Ret × σ
  VixJob_GetNthProperties : VixHandle → Int → List VixArg → σ → Ret × σ
  Vix_GetProperties : VixHandle → List VixArg → σ → Ret × σ
  Vix_GetErrorText : VixError → Addr → σ → Option String × σ
  Vix_FreeBuffer : Addr → σ → σ
  go_callback_char : Addr → Addr → σ → σ
  printf : String → Option String → σ → σ

/-! ## `helper.c` -/

section Helpers

variable {σ : Type}

/-- `helper.c:11` -/
def vix_job_wait (N : Vix σ) (jobHandle : VixHandle) : σ → Ret × σ :=
  N.VixJob_Wait jobHandle [.prop VIX_PROPERTY_NONE]

/-- `helper.c:15` -/
def get_vix_handle (N : Vix σ) (jobHandle : VixHandle) (prop1 : VixPropertyID)
    (handle : Addr) (prop2 : VixPropertyID) : σ → Ret × σ :=
  N.VixJob_Wait jobHandle
    [.prop prop1,
     .out .handle (.mem handle),
     .prop prop2]

/-- `helper.c:39` -/
def get_screenshot_bytes (N : Vix σ) (handle : VixHandle) (byte_count : Addr)
    (screen_bits : Addr) : σ → Ret × σ :=
  N.VixJob_Wait handle
    [.prop VIX_PROPERTY_JOB_RESULT_SCREEN_IMAGE_DATA,
     .out .int (.mem byte_count), .out .char (.mem screen_bits),
     .prop VIX_PROPERTY_NONE]

/-- `helper.c:50` -/
def get_num_shared_folders (N : Vix σ) (jobHandle : VixHandle) (numSharedFolders : Addr) :
    σ → Ret × σ :=
  N.VixJob_Wait jobHandle
    [.prop VIX_PROPERTY_JOB_RESULT_SHARED_FOLDER_COUNT,
     .out .int (.mem numSharedFolders),
     .prop VIX_PROPERTY_NONE]

/-- `helper.c:57` -/
def read_variable (N : Vix σ) (jobHandle : VixHandle) (readValue : Addr) : σ → Ret × σ :=
  N.VixJob_Wait jobHandle
    [.prop VIX_PROPERTY_JOB_RESULT_VM_VARIABLE_STRING,
     .out .charp (.mem readValue),
     .prop VIX_PROPERTY_NONE]

/-- `helper.c:64` -/
def get_temp_filepath (N : Vix σ) (jobHandle : VixHandle) (tempFilePath : Addr) :
    σ → Ret × σ :=
  N.VixJob_Wait jobHandle
    [.prop VIX_PROPERTY_JOB_RESULT_ITEM_NAME,
     .out .char (.mem tempFilePath),
     .prop VIX_PROPERTY_NONE]

/-- `helper.c:71` -/
def is_file_or_dir (N : Vix σ) (jobHandle : VixHandle) (result : Addr) : σ → Ret × σ :=
  N.VixJob_Wait jobHandle
    [.prop VIX_PROPERTY_JOB_RESULT_GUEST_OBJECT_EXISTS,
     .out .int (.mem result),
     .prop VIX_PROPERTY_NONE]

/-- `helper.c:78` -/
def get_program_output (N : Vix σ) (jobHandle : VixHandle) (pid : Addr) (elapsedTime : Addr)
    (exitCode : Addr) : σ → Ret × σ :=
  N.VixJob_Wait jobHandle
    [.prop VIX_PROPERTY_JOB_RESULT_PROCESS_ID,
     .out .uint64 (.mem pid),
     .prop VIX_PROPERTY_JOB_RESULT_GUEST_PROGRAM_ELAPSED_TIME,
     .out .int (.mem elapsedTime),
     .prop VIX_PROPERTY_JOB_RESULT_GUEST_PROGRAM_EXIT_CODE,
     .out .int (.mem exitCode),
     .prop VIX_PROPERTY_NONE]

/-- `helper.c:93` -/
def get_shared_folder (N : Vix σ) (jobHandle : VixHandle) (folderName : Addr)
    (folderHostPath : Addr) (folderFlags : Addr) : σ → Ret × σ :=
  N.VixJob_Wait jobHandle
    [.prop VIX_PROPERTY_JOB_RESULT_ITEM_NAME, .out .char (.mem folderName),
     .prop VIX_PROPERTY_JOB_RESULT_SHARED_FOLDER_HOST, .out .char (.mem folderHostPath),
     .prop VIX_PROPERTY_JOB_RESULT_SHARED_FOLDER_FLAGS, .out .int (.mem folderFlags),
     .prop VIX_PROPERTY_NONE]

/-- `helper.c:117` -/
def get_file_info (N : Vix σ) (jobHandle : VixHandle) (fsize : Addr) (flags : Addr)
    (modtime : Addr) : σ → Ret × σ :=
  N.Vix_GetProperties jobHandle
    [.prop VIX_PROPERTY_JOB_RESULT_FILE_SIZE,
     .out .int64 (.mem fsize),
     .prop VIX_PROPERTY_JOB_RESULT_FILE_FLAGS,
     .out .int (.mem flags),
     .prop VIX_PROPERTY_JOB_RESULT_FILE_MOD_TIME,
     .out .int64 (.mem modtime),
     .prop VIX_PROPERTY_NONE]

/-- `helper.c:132`.  The function is `void`: all it yields is the new world state.  The
local `err` is initialised to `VIX_OK` and overwritten before its only read, so it is bound
once, to the result of the property read; `jobHandle` is not used by the C body. -/
def find_items_callback (N : Vix σ) (jobHandle : VixHandle) (eventType : VixEventType)
    (moreEventInfo : VixHandle) (goCallback : Addr) (s : σ) : σ :=
  let url : Addr := NULL
  -- Check callback event; ignore progress reports.
  if VIX_EVENTTYPE_FIND_ITEM ≠ eventType then
    s
  else
    -- Found a virtual machine.
    let r := N.Vix_GetProperties moreEventInfo
      [.prop VIX_PROPERTY_FOUND_ITEM_LOCATION,
       .out .charp (.var "url"),
       .prop VIX_PROPERTY_NONE] s
    let err : VixError := r.1.err
    let url : Addr := loadAfter r.1.stores (.var "url") url
    let s := r.2
    let s :=
      if VIX_OK ≠ err then
        -- Handle the error...
        let t := N.Vix_GetErrorText err NULL s
        N.printf "Error %s\n" t.1 t.2
      else
        s
    let s := N.go_callback_char goCallback url s
    N.Vix_FreeBuffer url s

/-- `helper.c:162` -/
def get_guest_file (N : Vix σ) (jobHandle : VixHandle) (i : Int) (name : Addr) (size : Addr)
    (modtime : Addr) (flags : Addr) : σ → Ret × σ :=
  N.VixJob_GetNthProperties jobHandle
    i
    [.prop VIX_PROPERTY_JOB_RESULT_ITEM_NAME, .out .char (.mem name),
     .prop VIX_PROPERTY_JOB_RESULT_FILE_SIZE, .out .int64 (.mem size),
     .prop VIX_PROPERTY_JOB_RESULT_FILE_FLAGS, .out .int (.mem flags),
     .prop VIX_PROPERTY_JOB_RESULT_FILE_MOD_TIME, .out .int64 (.mem modtime),
     .prop VIX_PROPERTY_NONE]

/-- `helper.c:172` -/
def get_guest_process (N : Vix σ) (jobHandle : VixHandle) (i : Int) (name : Addr)
    (pid : Addr) (owner : Addr) (cmdline : Addr) (is_debugged : Addr) (start_time : Addr) :
    σ → Ret × σ :=
  N.VixJob_GetNthProperties jobHandle
    i
    [.prop VIX_PROPERTY_JOB_RESULT_ITEM_NAME, .out .char (.mem name),
     .prop VIX_PROPERTY_JOB_RESULT_PROCESS_ID, .out .uint64 (.mem pid),
     .prop VIX_PROPERTY_JOB_RESULT_PROCESS_OWNER, .out .char (.mem owner),
     .prop VIX_PROPERTY_JOB_RESULT_PROCESS_COMMAND, .out .char (.mem cmdline),
     .prop VIX_PROPERTY_JOB_RESULT_PROCESS_BEING_DEBUGGED, .out .bool (.mem is_debugged),
     .prop VIX_PROPERTY_JOB_RESULT_PROCESS_START_TIME, .out .int (.mem start_time),
     .prop VIX_PROPERTY_NONE]

end Helpers

/-! ## Observing the boundary -/

/-- One call crossing the boundary of `helper.c`, with the arguments it was given. -/
inductive Call
  | VixJob_Wait (h : VixHandle) (args : List VixArg)
  | VixJob_GetNthProperties (h : VixHandle) (i : Int) (args : List VixArg)
  | Vix_GetProperties (h : VixHandle) (args : List VixArg)
  | Vix_GetErrorText (err : VixError) (locale : Addr)
  | Vix_FreeBuffer (p : Addr)
  | go_callback_char (callbackPtr : Addr) (item : Addr)
  | printf (format : String) (arg : Option String)
  deriving DecidableEq, Repr

/-- The same native layer, with every call appended to a log before control returns to
the helper.  The log is in call order: an entry that follows another records a call made
after the earlier call had returned. -/
def Vix.traced {σ : Type} (N : Vix σ) : Vix (σ × List Call) where
  VixJob_Wait h args w :=
    ((N.VixJob_Wait h args w.1).1,
     ((N.VixJob_Wait h args w.1).2, w.2 ++ [Call.VixJob_Wait h args]))
  VixJob_GetNthProperties h i args w :=
    ((N.VixJob_GetNthProperties h i args w.1).1,
     ((N.VixJob_GetNthProperties h i args w.1).2, w.2 ++ [Call.VixJob_GetNthProperties h i args]))
  Vix_GetProperties h args w :=
    ((N.Vix_GetProperties h args w.1).1,
     ((N.Vix_GetProperties h args w.1).2, w.2 ++ [Call.Vix_GetProperties h args]))
  Vix_GetErrorText e l w :=
    ((N.Vix_GetErrorText e l w.1).1,
     ((N.Vix_GetErrorText e l w.1).2, w.2 ++ [Call.Vix_GetErrorText e l]))
  Vix_FreeBuffer p w := (N.Vix_FreeBuffer p w.1, w.2 ++ [Call.Vix_FreeBuffer p])
  go_callback_char c u w := (N.go_callback_char c u w.1, w.2 ++ [Call.go_callback_char c u])
  printf f a w := (N.printf f a w.1, w.2 ++ [Call.printf f a])

/-- Is the call an invocation of the host callback? -/
def Call.isHostCallback : Call → Bool
  | .go_callback_char _ _ => true
  | _ => false

/-- Is the call a buffer release? -/
def Call.isRelease : Call → Bool
  | .Vix_FreeBuffer _ => true
  | _ => false

/-- Is the call a property read or wait of the native engine? -/
def Call.isPropertyRequest : Call → Bool
  | .VixJob_Wait _ _ => true
  | .VixJob_GetNthProperties _ _ _ => true
  | .Vix_GetProperties _ _ => true
  | _ => false

/-- The `%s` arguments handed to `printf`, in call order. -/
def printfArgs : List Call → List (Option String)
  | [] => []
  | .printf _ a :: rest => a :: printfArgs rest
  | _ :: rest => printfArgs rest

/-- The argument list of the first property request in a log (empty when there is none). -/
def requestArgs : List Call → List VixArg
  | [] => []
  | .VixJob_Wait _ args :: _ => args
  | .VixJob_GetNthProperties _ _ args :: _ => args
  | .Vix_GetProperties _ args :: _ => args
  | _ :: rest => requestArgs rest

/-- The declared pointee type of the output pointer that directly follows the
identifier `id` in an argument list. -/
def slotOf : List VixArg → VixPropertyID → Option CType
  | .prop p :: .out t d :: rest, id => if p = id then some t else slotOf rest id
  | _ :: rest, id => slotOf rest id
  | [], _ => none

/-- The value read back from the slot paired with `id` in `args` once the engine has
delivered `v` to it; `none` when `args` pairs no slot with `id`. -/
def deliveredVia (args : List VixArg) (id : VixPropertyID) (v : Int) : Option Int :=
  (slotOf args id).map (fun t => t.hold v)

/-- An argument list made of (identifier, output pointer) pairs closed by the terminator
`VIX_PROPERTY_NONE`. -/
def pairsThenNone : List VixArg → Bool
  | [.prop id] => decide (id = VIX_PROPERTY_NONE)
  | .prop _ :: .out _ _ :: rest => pairsThenNone rest
  | _ => false

/-! ## Event delivery -/

/-- An event as the engine hands it to the registered callback: its type tag and the
handle of its property bag. -/
structure Event where
  eventType : VixEventType
  moreEventInfo : VixHandle
  deriving DecidableEq, Repr

/-- Is the event an "item found" event? -/
def Event.isFound (e : Event) : Bool :=
  decide (e.eventType = VIX_EVENTTYPE_FIND_ITEM)

/-- The engine delivering the events of one discovery job, one after the other, to
`find_items_callback` registered with the host context `goCallback`. -/
def deliver {σ : Type} (N : Vix σ) (jobHandle : VixHandle) (goCallback : Addr)
    (es : List Event) (s : σ) : σ :=
  es.foldl
    (fun s e => find_items_callback N jobHandle e.eventType e.moreEventInfo goCallback s) s

/-- The calls `find_items_callback` makes for one event delivered in state `s`. -/
def eventCalls {σ : Type} (N : Vix σ) (jobHandle : VixHandle) (goCallback : Addr)
    (e : Event) (s : σ) : List Call :=
  (find_items_callback N.traced jobHandle e.eventType e.moreEventInfo goCallback (s, [])).2

/-- The calls made for each event of a delivery, one block per event, in delivery order. -/
def eventBlocks {σ : Type} (N : Vix σ) (jobHandle : VixHandle) (goCallback : Addr) :
    List Event → σ → List (List Call)
  | [], _ => []
  | e :: es, s =>
    eventCalls N jobHandle goCallback e s ::
      eventBlocks N jobHandle goCallback es
        (find_items_callback N jobHandle e.eventType e.moreEventInfo goCallback s)

/-- The request `find_items_callback` issues for the location of a found item. -/
def locationRequest : List VixArg :=
  [.prop VIX_PROPERTY_FOUND_ITEM_LOCATION, .out .charp (.var "url"), .prop VIX_PROPERTY_NONE]

/-- A native layer over a trivial world that answers every property request with `r` and
renders every error code as `text`; used to exhibit concrete runs. -/
def constVix (r : Ret) (text : Option String) : Vix Unit where
  VixJob_Wait _ _ s := (r, s)
  VixJob_GetNthProperties _ _ _ s := (r, s)
  Vix_GetProperties _ _ s := (r, s)
  Vix_GetErrorText _ _ s := (text, s)
  Vix_FreeBuffer _ s := s
  go_callback_char _ _ s := s
  printf _ _ s := s

/-- The diagnostic text as the spec words it: the engine's rendering of the code when
there is one, otherwise the generic "native error <code>" message. -/
def describe_spec (rendering : Option String) (code : VixError) : String :=
  rendering.getD ("native error " ++ toString code)

/-! ## The native engine, as the spec describes it -/

/-- Modelled from the spec: the Error Mapper is not among the sources.  Its taxonomy is
`Success`, `JobFailed`, `TypeMismatch`, `NotFound`, `IndexOutOfRange` and the catch-all
`NativeFailure`, which keeps the original code. -/
inductive ErrorKind
  | Success
  | JobFailed
  | TypeMismatch
  | NotFound
  | IndexOutOfRange
  | NativeFailure (code : VixError)
  deriving DecidableEq, Repr

/-- Modelled from the spec: `vix.h` is not among the sources; the native code for an index
outside the result set (`VIX_E_INVALID_ARG`, 3 in the VIX header). -/
def VIX_E_INVALID_ARG : VixError := 3

/-- Modelled from the spec: `vix.h` is not among the sources; the native code for a handle
that names no job (`VIX_E_INVALID_HANDLE`, 1000 in the VIX header). -/
def VIX_E_INVALID_HANDLE : VixError := 1000

/-- Modelled from the spec: `vix.h` is not among the sources; the native code for a
property the handle does not have (`VIX_E_UNRECOGNIZED_PROPERTY`, 6000 in the VIX header). -/
def VIX_E_UNRECOGNIZED_PROPERTY : VixError := 6000

/-- Modelled from the spec: `vix.h` is not among the sources; the native code for a value
of another kind than requested (`VIX_E_TYPE_MISMATCH`, 2001 in the VIX header). -/
def VIX_E_TYPE_MISMATCH : VixError := 2001

/-- Modelled from the spec: `classify(nativeCode) -> ErrorKind` of the Error Mapper, which
is not among the sources.  `JobFailed` is decided by where a code was reported, not by
the code, so `classify` never yields it. -/
def classify (code : VixError) : ErrorKind :=
  if code = VIX_OK then .Success
  else if code = VIX_E_INVALID_ARG then .IndexOutOfRange
  else if code = VIX_E_TYPE_MISMATCH then .TypeMismatch
  else if code = VIX_E_UNRECOGNIZED_PROPERTY then .NotFound
  else .NativeFailure code

/-- Modelled from the spec: a property bag, "the set of named fields attached to a
completed job or event, queried by identifier".  Values are integers (numbers, or the
address of a native buffer); value kinds are not modelled. -/
abbrev Bag := List (VixPropertyID × Int)

/-- Modelled from the spec: a completed job of the native engine (which is closed and not
among the sources): its job-level status, its result properties, and its indexed result
set, "a sequence of Result Records of identical shape". -/
structure Job where
  status : VixError
  props : Bag
  records : List Bag
  deriving DecidableEq, Repr

/-- Modelled from the spec: the jobs known to the native engine, by handle. -/
abbrev Engine := List (VixHandle × Job)

/-- Modelled from the spec: the decoding of "a sentinel-terminated sequence of (property
identifier, output pointer) pairs" against a property bag, in the order given; each
requested field is stored through its paired pointer, a missing property fails the whole
request (`NotFound`), and a list that is not pairs up to the sentinel is an invalid
argument. -/
def decodeRequest (bag : Bag) : List VixArg → Except VixError (List (Dest × Int))
  | .prop VIX_PROPERTY_NONE :: _ => .ok []
  | .prop id :: .out _ d :: rest =>
    match bag.lookup id with
    | none => .error VIX_E_UNRECOGNIZED_PROPERTY
    | some v =>
      match decodeRequest bag rest with
      | .ok st => .ok ((d, v) :: st)
      | .error c => .error c
  | _ => .error VIX_E_INVALID_ARG

/-- Modelled from the spec: a decode is atomic, "either all requested fields decode or
the whole call fails with the first encountered codec error"; nothing is stored on
failure. -/
def decodeAll (bag : Bag) (args : List VixArg) : Ret :=
  match decodeRequest bag args with
  | .ok st => ⟨VIX_OK, st⟩
  | .error c => ⟨c, []⟩

/-- Modelled from the spec: the wait primitive of the native engine.  It "first checks
job-level status; if the job itself failed, returns `JobFailed(nativeCode)` and does not
attempt field decoding", and otherwise decodes every requested field in the order
given. -/
def specWait (E : Engine) (h : VixHandle) (args : List VixArg) : Ret :=
  match E.lookup h with
  | none => ⟨VIX_E_INVALID_HANDLE, []⟩
  | some job =>
    if job.status ≠ VIX_OK then ⟨job.status, []⟩
    else decodeAll job.props args

/-- Modelled from the spec: the indexed primitive of the native engine, "given a job
handle, a zero-based index, and the same style of (identifier, output pointer) pairs,
populate the Nth record's fields"; "an out-of-range `index` fails with
`IndexOutOfRange`". -/
def specGetNth (E : Engine) (h : VixHandle) (i : Int) (args : List VixArg) : Ret :=
  match E.lookup h with
  | none => ⟨VIX_E_INVALID_HANDLE, []⟩
  | some job =>
    if job.status ≠ VIX_OK then ⟨job.status, []⟩
    else if i < 0 ∨ (job.records.length : Int) ≤ i then ⟨VIX_E_INVALID_ARG, []⟩
    else
      match job.records.get? i.toNat with
      | none => ⟨VIX_E_INVALID_ARG, []⟩
      | some record => decodeAll record args

/-- Modelled from the spec: the native engine as a `Vix` layer over the table of its jobs.
Property reads leave the engine unchanged ("no native side effect beyond property
reads").  Error text, buffer release, the host callback and `printf` are inert here: this
layer is used for the wait and indexed helpers only. -/
def specVix : Vix Engine where
  VixJob_Wait h args E := (specWait E h args, E)
  VixJob_GetNthProperties h i args E := (specGetNth E h i args, E)
  Vix_GetProperties h args E := (specWait E h args, E)
  Vix_GetErrorText _ _ E := (none, E)
  Vix_FreeBuffer _ E := E
  go_callback_char _ _ E := E
  printf _ _ E := E

/-- Does the bag define every one of the identifiers? -/
def Bag.hasAll (b : Bag) (ids : List VixPropertyID) : Bool :=
  ids.all (fun id => (b.lookup id).isSome)

/-- The fields of a record of a guest file listing. -/
def fileFields : List VixPropertyID :=
  [VIX_PROPERTY_JOB_RESULT_ITEM_NAME, VIX_PROPERTY_JOB_RESULT_FILE_SIZE,
   VIX_PROPERTY_JOB_RESULT_FILE_FLAGS, VIX_PROPERTY_JOB_RESULT_FILE_MOD_TIME]

/-- The fields of a record of a guest process listing. -/
def processFields : List VixPropertyID :=
  [VIX_PROPERTY_JOB_RESULT_ITEM_NAME, VIX_PROPERTY_JOB_RESULT_PROCESS_ID,
   VIX_PROPERTY_JOB_RESULT_PROCESS_OWNER, VIX_PROPERTY_JOB_RESULT_PROCESS_COMMAND,
   VIX_PROPERTY_JOB_RESULT_PROCESS_BEING_DEBUGGED,
   VIX_PROPERTY_JOB_RESULT_PROCESS_START_TIME]

/-- A record of a file listing: name buffer, size, flags, modification time. -/
def fileRecord (name size flags modtime : Int) : Bag :=
  [(VIX_PROPERTY_JOB_RESULT_ITEM_NAME, name), (VIX_PROPERTY_JOB_RESULT_FILE_SIZE, size),
   (VIX_PROPERTY_JOB_RESULT_FILE_FLAGS, flags), (VIX_PROPERTY_JOB_RESULT_FILE_MOD_TIME, modtime)]

/-- A record of a process listing. -/
def processRecord (name pid owner cmdline debugged start : Int) : Bag :=
  [(VIX_PROPERTY_JOB_RESULT_ITEM_NAME, name), (VIX_PROPERTY_JOB_RESULT_PROCESS_ID, pid),
   (VIX_PROPERTY_JOB_RESULT_PROCESS_OWNER, owner),
   (VIX_PROPERTY_JOB_RESULT_PROCESS_COMMAND, cmdline),
   (VIX_PROPERTY_JOB_RESULT_PROCESS_BEING_DEBUGGED, debugged),
   (VIX_PROPERTY_JOB_RESULT_PROCESS_START_TIME, start)]

/-- An engine holding, under handle 7, a successful job that lists five guest files; the
file at index 2 has size 4096, flags 1 (directory) and modification time 1700000000. -/
def fiveFiles : Engine :=
  [(7, ⟨VIX_OK, [],
    [fileRecord 1000 10 0 1600000000, fileRecord 1100 20 0 1600000001,
     fileRecord 1200 4096 1 1700000000, fileRecord 1300 30 0 1600000003,
     fileRecord 1400 40 0 1600000004]⟩)]

/-- An engine holding, under handle 9, a successful job that lists two guest processes. -/
def twoProcesses : Engine :=
  [(9, ⟨VIX_OK, [],
    [processRecord 2000 1 2100 2200 0 1600000000,
     processRecord 3000 4294967296 3100 3200 1 1600000001]⟩)]

/-- An engine holding, under handle 5, a finished guest program: process id, elapsed time
and exit code. -/
def finishedProgram : Engine :=
  [(5, ⟨VIX_OK,
    [(VIX_PROPERTY_JOB_RESULT_PROCESS_ID, 4294967297),
     (VIX_PROPERTY_JOB_RESULT_GUEST_PROGRAM_ELAPSED_TIME, 12),
     (VIX_PROPERTY_JOB_RESULT_GUEST_PROGRAM_EXIT_CODE, 0)], []⟩)]

/-- The run `run` of a wrapper over the traced layer amounts to the single request
`VixJob_Wait h args`: it appends that one call to the log and hands back the code, the
stores and the world of the request unchanged. -/
def IsSingleWait {σ : Type} (N : Vix σ) (run : σ × List Call → Ret × (σ × List Call))
    (h : VixHandle) (args : List VixArg) : Prop :=
  ∀ (s : σ) (log : List Call),
    run (s, log) =
      ((N.VixJob_Wait h args s).1,
       ((N.VixJob_Wait h args s).2, log ++ [Call.VixJob_Wait h args]))

/-! ## Lemmas on the traced bridge -/

section BridgeLemmas

variable {σ : Type}

/-- The location read of a found event delivered in state `s`. -/
def locationRead (N : Vix σ) (moreEventInfo : VixHandle) (s : σ) : Ret × σ :=
  N.Vix_GetProperties moreEventInfo locationRequest s

/-- The value of `url` after the location read. -/
def decodedUrl (N : Vix σ) (moreEventInfo : VixHandle) (s : σ) : Addr :=
  loadAfter (locationRead N moreEventInfo s).1.stores (.var "url") NULL

theorem find_items_callback_other (N : Vix σ) (jobHandle : VixHandle) (t : VixEventType)
    (m : VixHandle) (g : Addr) (s : σ) (ht : t ≠ VIX_EVENTTYPE_FIND_ITEM) :
    find_items_callback N jobHandle t m g s = s := by
  unfold find_items_callback
  simp [Ne.symm ht]

theorem eventCalls_other (N : Vix σ) (jobHandle : VixHandle) (g : Addr) (e : Event) (s : σ)
    (ht : e.eventType ≠ VIX_EVENTTYPE_FIND_ITEM) :
    eventCalls N jobHandle g e s = [] := by
  unfold eventCalls
  rw [find_items_callback_other _ _ _ _ _ _ ht]

theorem eventCalls_found (N : Vix σ) (jobHandle : VixHandle) (g : Addr) (m : VixHandle)
    (s : σ) :
    eventCalls N jobHandle g ⟨VIX_EVENTTYPE_FIND_ITEM, m⟩ s =
      Call.Vix_GetProperties m locationRequest ::
        ((if VIX_OK ≠ (locationRead N m s).1.err then
            [Call.Vix_GetErrorText (locationRead N m s).1.err NULL,
             Call.printf "Error %s\n"
               (N.Vix_GetErrorText (locationRead N m s).1.err NULL (locationRead N m s).2).1]
          else []) ++
        [Call.go_callback_char g (decodedUrl N m s),
         Call.Vix_FreeBuffer (decodedUrl N m s)]) := by
  unfold eventCalls find_items_callback decodedUrl locationRead locationRequest
  by_cases h : VIX_OK = (N.Vix_GetProperties m
      [.prop VIX_PROPERTY_FOUND_ITEM_LOCATION, .out .charp (.var "url"),
       .prop VIX_PROPERTY_NONE] s).1.err
  · simp [Vix.traced, ← h]
  · simp [Vix.traced, h]

theorem find_items_callback_traced (N : Vix σ) (jobHandle : VixHandle) (t : VixEventType)
    (m : VixHandle) (g : Addr) (s : σ) (log : List Call) :
    find_items_callback N.traced jobHandle t m g (s, log) =
      (find_items_callback N jobHandle t m g s, log ++ eventCalls N jobHandle g ⟨t, m⟩ s) := by
  by_cases ht : t = VIX_EVENTTYPE_FIND_ITEM
  · subst ht
    rw [eventCalls_found]
    unfold find_items_callback decodedUrl locationRead locationRequest
    by_cases h : VIX_OK = (N.Vix_GetProperties m
        [.prop VIX_PROPERTY_FOUND_ITEM_LOCATION, .out .charp (.var "url"),
         .prop VIX_PROPERTY_NONE] s).1.err
    · simp [Vix.traced, ← h]
    · simp [Vix.traced, h]
  · rw [eventCalls_other N jobHandle g ⟨t, m⟩ s ht, find_items_callback_other _ _ _ _ _ _ ht,
      find_items_callback_other _ _ _ _ _ _ ht]
    simp

theorem deliver_traced (N : Vix σ) (jobHandle : VixHandle) (g : Addr) (es : List Event) :
    ∀ (s : σ) (log : List Call),
      deliver N.traced jobHandle g es (s, log) =
        (deliver N jobHandle g es s, log ++ (eventBlocks N jobHandle g es s).flatten) := by
  induction es with
  | nil => intro s log; simp [deliver, eventBlocks]
  | cons e es ih =>
    intro s log
    have h := ih (find_items_callback N jobHandle e.eventType e.moreEventInfo g s)
      (log ++ eventCalls N jobHandle g e s)
    simp only [deliver, List.foldl_cons] at h ⊢
    rw [find_items_callback_traced, h]
    simp [eventBlocks]

end BridgeLemmas

/-! ## The event callback bridge -/

section Bridge

variable {σ : Type}

theorem hostCallbacks_eventCalls (N : Vix σ) (jobHandle : VixHandle) (g : Addr) (e : Event)
    (s : σ) :
    ((eventCalls N jobHandle g e s).filter Call.isHostCallback).length =
      if e.isFound then 1 else 0 := by
  obtain ⟨t, m⟩ := e
  by_cases ht : t = VIX_EVENTTYPE_FIND_ITEM
  · subst ht
    rw [eventCalls_found]
    by_cases h : VIX_OK = (locationRead N m s).1.err
    · simp [Event.isFound, Call.isHostCallback, ← h]
    · simp [Event.isFound, Call.isHostCallback, h]
  · rw [eventCalls_other N jobHandle g ⟨t, m⟩ s ht]
    simp [Event.isFound, ht]

theorem hostCallbacks_eventBlocks (N : Vix σ) (jobHandle : VixHandle) (g : Addr)
    (es : List Event) :
    ∀ s : σ, ((eventBlocks N jobHandle g es s).flatten.filter Call.isHostCallback).length =
      (es.filter Event.isFound).length := by
  induction es with
  | nil => intro s; simp [eventBlocks]
  | cons e es ih =>
    intro s
    simp only [eventBlocks, List.flatten_cons, List.filter_append, List.length_append]
    rw [hostCallbacks_eventCalls, ih]
    by_cases he : e.isFound <;> simp [List.filter_cons, he, Nat.add_comm]

/-- C1: over any native layer and any finite sequence of events delivered for one
discovery job, (1) an event whose type is not "item found" leaves the world and the log
untouched: no property read, no host callback, no release; (2) the log is the
concatenation, in emission order, of one block per event, empty for an event of another
type and, for a found event, made of the location read on that event's handle, the error
report if any, exactly one `go_callback_char` with the registered context and the release;
(3) the number of host callback invocations is the number of found events; (4) the
sequence progress, found, found, progress, found yields exactly 3 invocations. -/
theorem find_items_callback_forwards_found_events (N : Vix σ) (jobHandle : VixHandle)
    (goCallback : Addr) :
    (∀ (t : VixEventType) (m : VixHandle) (w : σ × List Call),
        t ≠ VIX_EVENTTYPE_FIND_ITEM →
          find_items_callback N.traced jobHandle t m goCallback w = w) ∧
    (∀ (es : List Event) (s : σ), ∃ blocks : List (List Call),
        (deliver N.traced jobHandle goCallback es (s, [])).2 = blocks.flatten ∧
        List.Forall₂
          (fun e b =>
            (e.eventType ≠ VIX_EVENTTYPE_FIND_ITEM → b = []) ∧
            (e.eventType = VIX_EVENTTYPE_FIND_ITEM → ∃ report url,
              b = Call.Vix_GetProperties e.moreEventInfo locationRequest :: report ++
                    [Call.go_callback_char goCallback url, Call.Vix_FreeBuffer url] ∧
              ∀ c ∈ report, c.isHostCallback = false ∧ c.isRelease = false ∧
                c.isPropertyRequest = false))
          es blocks) ∧
    (∀ (es : List Event) (s : σ),
        ((deliver N.traced jobHandle goCallback es (s, [])).2.filter
            Call.isHostCallback).length = (es.filter Event.isFound).length) ∧
    (∀ (m1 m2 m3 m4 m5 : VixHandle) (s : σ),
        ((deliver N.traced jobHandle goCallback
            [⟨VIX_EVENTTYPE_JOB_PROGRESS, m1⟩, ⟨VIX_EVENTTYPE_FIND_ITEM, m2⟩,
             ⟨VIX_EVENTTYPE_FIND_ITEM, m3⟩, ⟨VIX_EVENTTYPE_JOB_PROGRESS, m4⟩,
             ⟨VIX_EVENTTYPE_FIND_ITEM, m5⟩] (s, [])).2.filter
            Call.isHostCallback).length = 3) := by
  have count : ∀ (es : List Event) (s : σ),
      ((deliver N.traced jobHandle goCallback es (s, [])).2.filter
          Call.isHostCallback).length = (es.filter Event.isFound).length := by
    intro es s
    rw [deliver_traced]
    simpa using hostCallbacks_eventBlocks N jobHandle goCallback es s
  refine ⟨?_, ?_, count, ?_⟩
  · intro t m w ht
    exact find_items_callback_other _ _ _ _ _ _ ht
  · intro es s
    refine ⟨eventBlocks N jobHandle goCallback es s, ?_, ?_⟩
    · rw [deliver_traced]; simp
    · induction es generalizing s with
      | nil => simp [eventBlocks]
      | cons e es ih =>
        simp only [eventBlocks]
        refine List.Forall₂.cons ⟨?_, ?_⟩ (ih _)
        · intro ht
          exact eventCalls_other N jobHandle goCallback e s ht
        · intro ht
          obtain ⟨t, m⟩ := e
          simp only at ht
          subst ht
          rw [eventCalls_found]
          refine ⟨_, decodedUrl N m s, rfl, ?_⟩
          intro c hc
          by_cases h : VIX_OK = (locationRead N m s).1.err
          · simp [← h] at hc
          · simp [h] at hc
            rcases hc with hc | hc <;> subst hc <;>
              simp [Call.isHostCallback, Call.isRelease, Call.isPropertyRequest]
  · intro m1 m2 m3 m4 m5 s
    rw [count]
    simp [List.filter_cons, Event.isFound, VIX_EVENTTYPE_JOB_PROGRESS, VIX_EVENTTYPE_FIND_ITEM]

/-- C1, at a concrete run: over a native layer that decodes every location to the buffer
4242, a progress event changes nothing and the five-event sequence of the spec yields
three host callback invocations. -/
theorem find_items_callback_forwards_found_events_witness :
    find_items_callback (constVix ⟨VIX_OK, [(.var "url", 4242)]⟩ none).traced 1
        VIX_EVENTTYPE_JOB_PROGRESS 2 99 ((), []) = ((), []) ∧
    ((deliver (constVix ⟨VIX_OK, [(.var "url", 4242)]⟩ none).traced 1 99
        [⟨VIX_EVENTTYPE_JOB_PROGRESS, 20⟩, ⟨VIX_EVENTTYPE_FIND_ITEM, 21⟩,
         ⟨VIX_EVENTTYPE_FIND_ITEM, 22⟩, ⟨VIX_EVENTTYPE_JOB_PROGRESS, 23⟩,
         ⟨VIX_EVENTTYPE_FIND_ITEM, 24⟩] ((), [])).2.filter
        Call.isHostCallback).length = 3 :=
  ⟨(find_items_callback_forwards_found_events
      (constVix ⟨VIX_OK, [(.var "url", 4242)]⟩ none) 1 99).1
      VIX_EVENTTYPE_JOB_PROGRESS 2 ((), []) (by decide),
   (find_items_callback_forwards_found_events
      (constVix ⟨VIX_OK, [(.var "url", 4242)]⟩ none) 1 99).2.2.2 20 21 22 23 24 ()⟩

/-- C2: for every found event, over any native layer, the bridge appends to the log a run
of calls that ends with the host callback on some buffer `url` immediately followed by
`Vix_FreeBuffer` on that same `url`; nothing before the callback is a release or a host
callback, so the release happens exactly once and only after the host callback has
returned; the resulting world is the release applied to the world the callback
returned. -/
theorem find_items_callback_releases_after_callback (N : Vix σ) (jobHandle : VixHandle)
    (moreEventInfo : VixHandle) (goCallback : Addr) (s : σ) (log : List Call) :
    ∃ (before : List Call) (url : Addr) (mid : σ),
      (find_items_callback N.traced jobHandle VIX_EVENTTYPE_FIND_ITEM moreEventInfo
          goCallback (s, log)).2 =
        log ++ before ++ [Call.go_callback_char goCallback url, Call.Vix_FreeBuffer url] ∧
      (∀ c ∈ before, c.isRelease = false ∧ c.isHostCallback = false) ∧
      ((before ++ [Call.go_callback_char goCallback url, Call.Vix_FreeBuffer url]).filter
          Call.isRelease) = [Call.Vix_FreeBuffer url] ∧
      find_items_callback N jobHandle VIX_EVENTTYPE_FIND_ITEM moreEventInfo goCallback s =
        N.Vix_FreeBuffer url (N.go_callback_char goCallback url mid) := by
  rw [find_items_callback_traced, eventCalls_found]
  by_cases h : VIX_OK = (locationRead N moreEventInfo s).1.err
  · refine ⟨[Call.Vix_GetProperties moreEventInfo locationRequest],
      decodedUrl N moreEventInfo s, (locationRead N moreEventInfo s).2, ?_, ?_, ?_, ?_⟩
    · simp [← h]
    · intro c hc
      simp at hc
      subst hc
      simp [Call.isRelease, Call.isHostCallback]
    · simp [List.filter_cons, Call.isRelease]
    · unfold find_items_callback decodedUrl
      unfold locationRead locationRequest at h
      simp [← h, locationRead, locationRequest]
  · refine ⟨[Call.Vix_GetProperties moreEventInfo locationRequest,
        Call.Vix_GetErrorText (locationRead N moreEventInfo s).1.err NULL,
        Call.printf "Error %s\n"
          (N.Vix_GetErrorText (locationRead N moreEventInfo s).1.err NULL
            (locationRead N moreEventInfo s).2).1],
      decodedUrl N moreEventInfo s,
      N.printf "Error %s\n"
        (N.Vix_GetErrorText (locationRead N moreEventInfo s).1.err NULL
          (locationRead N moreEventInfo s).2).1
        (N.Vix_GetErrorText (locationRead N moreEventInfo s).1.err NULL
          (locationRead N moreEventInfo s).2).2, ?_, ?_, ?_, ?_⟩
    · simp [h]
    · intro c hc
      simp at hc
      rcases hc with hc | hc | hc <;> subst hc <;> simp [Call.isRelease, Call.isHostCallback]
    · simp [List.filter_cons, Call.isRelease]
    · unfold find_items_callback decodedUrl
      unfold locationRead locationRequest at h
      simp [h, locationRead, locationRequest]

/-- C9, as amended: for a found event whose location read fails with code `err`, the
bridge asks the engine once for the text of `err` (null locale) and hands what the engine
yields, unchanged, to `printf` under the format "Error %s\n": the rendering when there is
one, the null pointer when there is none.  No other text is substituted, and the bridge
goes on to the host callback and the release. -/
theorem find_items_callback_reports_engine_text (N : Vix σ) (jobHandle : VixHandle)
    (moreEventInfo : VixHandle) (goCallback : Addr) (s : σ)
    (hfail : (N.Vix_GetProperties moreEventInfo locationRequest s).1.err ≠ VIX_OK) :
    eventCalls N jobHandle goCallback ⟨VIX_EVENTTYPE_FIND_ITEM, moreEventInfo⟩ s =
      [Call.Vix_GetProperties moreEventInfo locationRequest,
       Call.Vix_GetErrorText (N.Vix_GetProperties moreEventInfo locationRequest s).1.err NULL,
       Call.printf "Error %s\n"
         (N.Vix_GetErrorText (N.Vix_GetProperties moreEventInfo locationRequest s).1.err NULL
           (N.Vix_GetProperties moreEventInfo locationRequest s).2).1,
       Call.go_callback_char goCallback (decodedUrl N moreEventInfo s),
       Call.Vix_FreeBuffer (decodedUrl N moreEventInfo s)] ∧
    printfArgs (eventCalls N jobHandle goCallback ⟨VIX_EVENTTYPE_FIND_ITEM, moreEventInfo⟩ s) =
      [(N.Vix_GetErrorText (N.Vix_GetProperties moreEventInfo locationRequest s).1.err NULL
        (N.Vix_GetProperties moreEventInfo locationRequest s).2).1] := by
  have h : eventCalls N jobHandle goCallback ⟨VIX_EVENTTYPE_FIND_ITEM, moreEventInfo⟩ s =
      [Call.Vix_GetProperties moreEventInfo locationRequest,
       Call.Vix_GetErrorText (N.Vix_GetProperties moreEventInfo locationRequest s).1.err NULL,
       Call.printf "Error %s\n"
         (N.Vix_GetErrorText (N.Vix_GetProperties moreEventInfo locationRequest s).1.err NULL
           (N.Vix_GetProperties moreEventInfo locationRequest s).2).1,
       Call.go_callback_char goCallback (decodedUrl N moreEventInfo s),
       Call.Vix_FreeBuffer (decodedUrl N moreEventInfo s)] := by
    rw [eventCalls_found]
    simp [locationRead, Ne.symm hfail]
  refine ⟨h, ?_⟩
  rw [h]
  simp [printfArgs]

/-- C9, as amended, at a concrete run: the engine renders code 3 as "bad argument", and
that text is what `printf` receives. -/
theorem find_items_callback_reports_engine_text_witness :
    printfArgs (eventCalls (constVix ⟨VIX_E_INVALID_ARG, []⟩ (some "bad argument")) 1 99
      ⟨VIX_EVENTTYPE_FIND_ITEM, 21⟩ ()) = [some "bad argument"] :=
  (find_items_callback_reports_engine_text
    (constVix ⟨VIX_E_INVALID_ARG, []⟩ (some "bad argument")) 1 21 99 () (by decide)).2

/-- C9, as stated, fails: when the engine has no text for the code (here code 3), `printf`
receives the null pointer, not the generic message "native error 3". -/
theorem find_items_callback_no_generic_fallback :
    printfArgs (eventCalls (constVix ⟨VIX_E_INVALID_ARG, []⟩ none) 1 99
      ⟨VIX_EVENTTYPE_FIND_ITEM, 21⟩ ()) = [none] ∧
    printfArgs (eventCalls (constVix ⟨VIX_E_INVALID_ARG, []⟩ none) 1 99
      ⟨VIX_EVENTTYPE_FIND_ITEM, 21⟩ ()) ≠
        [some (describe_spec
          ((constVix ⟨VIX_E_INVALID_ARG, []⟩ none).Vix_GetErrorText VIX_E_INVALID_ARG NULL ()).1
          VIX_E_INVALID_ARG)] := by
  have h : printfArgs (eventCalls (constVix ⟨VIX_E_INVALID_ARG, []⟩ none) 1 99
      ⟨VIX_EVENTTYPE_FIND_ITEM, 21⟩ ()) = [none] := by
    rw [eventCalls_found]
    simp [locationRead, constVix, printfArgs, VIX_OK, VIX_E_INVALID_ARG]
  refine ⟨h, ?_⟩
  rw [h]
  simp

end Bridge

/-! ## Wait and indexed helpers -/

section Decoders

/-- C5: `get_program_output` issues exactly one native request, a `VixJob_Wait` on the
given handle whose fields are, in order, process id into `pid`, elapsed time into
`elapsedTime`, exit code into `exitCode`, closed by the terminator; it hands back that
request's code and stores unchanged (over any native layer, traced or not).  Over the
engine of the spec, a successful call stores exactly these three properties of the job,
each through its own pointer. -/
theorem get_program_output_single_wait (jobHandle : VixHandle)
    (pid elapsedTime exitCode : Addr) :
    (∀ (σ : Type) (N : Vix σ) (s : σ) (log : List Call),
      get_program_output N.traced jobHandle pid elapsedTime exitCode (s, log) =
        ((N.VixJob_Wait jobHandle
            [.prop VIX_PROPERTY_JOB_RESULT_PROCESS_ID, .out .uint64 (.mem pid),
             .prop VIX_PROPERTY_JOB_RESULT_GUEST_PROGRAM_ELAPSED_TIME,
             .out .int (.mem elapsedTime),
             .prop VIX_PROPERTY_JOB_RESULT_GUEST_PROGRAM_EXIT_CODE, .out .int (.mem exitCode),
             .prop VIX_PROPERTY_NONE] s).1,
         (N.VixJob_Wait jobHandle
            [.prop VIX_PROPERTY_JOB_RESULT_PROCESS_ID, .out .uint64 (.mem pid),
             .prop VIX_PROPERTY_JOB_RESULT_GUEST_PROGRAM_ELAPSED_TIME,
             .out .int (.mem elapsedTime),
             .prop VIX_PROPERTY_JOB_RESULT_GUEST_PROGRAM_EXIT_CODE, .out .int (.mem exitCode),
             .prop VIX_PROPERTY_NONE] s).2,
         log ++ [Call.VixJob_Wait jobHandle
            [.prop VIX_PROPERTY_JOB_RESULT_PROCESS_ID, .out .uint64 (.mem pid),
             .prop VIX_PROPERTY_JOB_RESULT_GUEST_PROGRAM_ELAPSED_TIME,
             .out .int (.mem elapsedTime),
             .prop VIX_PROPERTY_JOB_RESULT_GUEST_PROGRAM_EXIT_CODE, .out .int (.mem exitCode),
             .prop VIX_PROPERTY_NONE]])) ∧
    (∀ (σ : Type) (N : Vix σ) (s : σ),
      get_program_output N jobHandle pid elapsedTime exitCode s =
        N.VixJob_Wait jobHandle
          [.prop VIX_PROPERTY_JOB_RESULT_PROCESS_ID, .out .uint64 (.mem pid),
           .prop VIX_PROPERTY_JOB_RESULT_GUEST_PROGRAM_ELAPSED_TIME,
           .out .int (.mem elapsedTime),
           .prop VIX_PROPERTY_JOB_RESULT_GUEST_PROGRAM_EXIT_CODE, .out .int (.mem exitCode),
           .prop VIX_PROPERTY_NONE] s) ∧
    (∀ E : Engine,
      (get_program_output specVix jobHandle pid elapsedTime exitCode E).1.err = VIX_OK →
        ∃ (job : Job) (p t x : Int),
          E.lookup jobHandle = some job ∧
          job.props.lookup VIX_PROPERTY_JOB_RESULT_PROCESS_ID = some p ∧
          job.props.lookup VIX_PROPERTY_JOB_RESULT_GUEST_PROGRAM_ELAPSED_TIME = some t ∧
          job.props.lookup VIX_PROPERTY_JOB_RESULT_GUEST_PROGRAM_EXIT_CODE = some x ∧
          (get_program_output specVix jobHandle pid elapsedTime exitCode E).1.stores =
            [(.mem pid, p), (.mem elapsedTime, t), (.mem exitCode, x)]) := by
  refine ⟨fun σ N s log => rfl, fun σ N s => rfl, ?_⟩
  intro E
  simp only [get_program_output, specVix, specWait]
  cases hj : E.lookup jobHandle with
  | none => simp [VIX_E_INVALID_HANDLE, VIX_OK]
  | some job =>
    by_cases hs : job.status = VIX_OK
    · simp only [hs, ne_eq, not_true_eq_false, if_false, decodeAll, decodeRequest]
      cases h1 : List.lookup VIX_PROPERTY_JOB_RESULT_PROCESS_ID job.props with
      | none => simp [VIX_E_UNRECOGNIZED_PROPERTY, VIX_OK]
      | some p =>
        cases h2 : List.lookup VIX_PROPERTY_JOB_RESULT_GUEST_PROGRAM_ELAPSED_TIME job.props with
        | none => simp [VIX_E_UNRECOGNIZED_PROPERTY, VIX_OK]
        | some t =>
          cases h3 : List.lookup VIX_PROPERTY_JOB_RESULT_GUEST_PROGRAM_EXIT_CODE job.props with
          | none => simp [VIX_E_UNRECOGNIZED_PROPERTY, VIX_OK]
          | some x =>
            simp
            exact ⟨p, h1, t, h2, x, h3, rfl, rfl, rfl⟩
    · simp [hs]

/-- C5, at a concrete run: the finished program under handle 5 yields process id
4294967297 through `pid`, elapsed time 12 through `elapsedTime` and exit code 0 through
`exitCode`. -/
theorem get_program_output_single_wait_witness :
    (get_program_output specVix 5 100 108 112 finishedProgram).1.err = VIX_OK ∧
    ∃ (job : Job) (p t x : Int),
      finishedProgram.lookup 5 = some job ∧
      job.props.lookup VIX_PROPERTY_JOB_RESULT_PROCESS_ID = some p ∧
      job.props.lookup VIX_PROPERTY_JOB_RESULT_GUEST_PROGRAM_ELAPSED_TIME = some t ∧
      job.props.lookup VIX_PROPERTY_JOB_RESULT_GUEST_PROGRAM_EXIT_CODE = some x ∧
      (get_program_output specVix 5 100 108 112 finishedProgram).1.stores =
        [(.mem 100, p), (.mem 108, t), (.mem 112, x)] :=
  ⟨by decide, (get_program_output_single_wait 5 100 108 112).2.2 finishedProgram (by decide)⟩

theorem specGetNth_in_range (E : Engine) (h : VixHandle) (job : Job) (i : Int)
    (record : Bag) (args : List VixArg) (hjob : E.lookup h = some job)
    (hok : job.status = VIX_OK) (hi : 0 ≤ i) (hrec : job.records.get? i.toNat = some record) :
    specGetNth E h i args = decodeAll record args := by
  have hlt : i.toNat < job.records.length := by
    rcases List.get?_eq_some.mp hrec with ⟨hlt, _⟩
    exact hlt
  have hlt' : i < (job.records.length : Int) := by omega
  have hcond : ¬ (i < 0 ∨ (job.records.length : Int) ≤ i) := by omega
  simp only [specGetNth, hjob, hok, ne_eq, not_true_eq_false, if_false, hcond, hrec]

theorem specGetNth_out_of_range (E : Engine) (h : VixHandle) (job : Job) (i : Int)
    (args : List VixArg) (hjob : E.lookup h = some job) (hok : job.status = VIX_OK)
    (hi : i < 0 ∨ (job.records.length : Int) ≤ i) :
    specGetNth E h i args = ⟨VIX_E_INVALID_ARG, []⟩ := by
  simp only [specGetNth, hjob, hok, ne_eq, not_true_eq_false, if_false, hi, if_true]

/-- C4: `get_guest_file` issues exactly one native request, a `VixJob_GetNthProperties` on
the given handle for the index `i` it was given, in which item name is paired with `name`,
file size with `size`, file flags with `flags` and file modification time with `modtime`,
the parameter order (name, size, modtime, flags) notwithstanding; it hands back that
request's result unchanged.  Over the engine of the spec, the record at index `i` of a
successful job is therefore decoded field by field into the like-named slot. -/
theorem get_guest_file_pairs_like_named (jobHandle : VixHandle) (i : Int)
    (name size modtime flags : Addr) :
    (∀ (σ : Type) (N : Vix σ) (s : σ) (log : List Call),
      get_guest_file N.traced jobHandle i name size modtime flags (s, log) =
        ((N.VixJob_GetNthProperties jobHandle i
            [.prop VIX_PROPERTY_JOB_RESULT_ITEM_NAME, .out .char (.mem name),
             .prop VIX_PROPERTY_JOB_RESULT_FILE_SIZE, .out .int64 (.mem size),
             .prop VIX_PROPERTY_JOB_RESULT_FILE_FLAGS, .out .int (.mem flags),
             .prop VIX_PROPERTY_JOB_RESULT_FILE_MOD_TIME, .out .int64 (.mem modtime),
             .prop VIX_PROPERTY_NONE] s).1,
         (N.VixJob_GetNthProperties jobHandle i
            [.prop VIX_PROPERTY_JOB_RESULT_ITEM_NAME, .out .char (.mem name),
             .prop VIX_PROPERTY_JOB_RESULT_FILE_SIZE, .out .int64 (.mem size),
             .prop VIX_PROPERTY_JOB_RESULT_FILE_FLAGS, .out .int (.mem flags),
             .prop VIX_PROPERTY_JOB_RESULT_FILE_MOD_TIME, .out .int64 (.mem modtime),
             .prop VIX_PROPERTY_NONE] s).2,
         log ++ [Call.VixJob_GetNthProperties jobHandle i
            [.prop VIX_PROPERTY_JOB_RESULT_ITEM_NAME, .out .char (.mem name),
             .prop VIX_PROPERTY_JOB_RESULT_FILE_SIZE, .out .int64 (.mem size),
             .prop VIX_PROPERTY_JOB_RESULT_FILE_FLAGS, .out .int (.mem flags),
             .prop VIX_PROPERTY_JOB_RESULT_FILE_MOD_TIME, .out .int64 (.mem modtime),
             .prop VIX_PROPERTY_NONE]])) ∧
    (∀ (E : Engine) (job : Job) (record : Bag) (n sz f mt : Int),
      E.lookup jobHandle = some job → job.status = VIX_OK → 0 ≤ i →
      job.records.get? i.toNat = some record →
      record.lookup VIX_PROPERTY_JOB_RESULT_ITEM_NAME = some n →
      record.lookup VIX_PROPERTY_JOB_RESULT_FILE_SIZE = some sz →
      record.lookup VIX_PROPERTY_JOB_RESULT_FILE_FLAGS = some f →
      record.lookup VIX_PROPERTY_JOB_RESULT_FILE_MOD_TIME = some mt →
        (get_guest_file specVix jobHandle i name size modtime flags E).1 =
          ⟨VIX_OK, [(.mem name, n), (.mem size, sz), (.mem flags, f), (.mem modtime, mt)]⟩) := by
  refine ⟨fun σ N s log => rfl, ?_⟩
  intro E job record n sz f mt hjob hok hi hrec hn hsz hf hmt
  simp only [get_guest_file, specVix]
  rw [specGetNth_in_range E jobHandle job i record _ hjob hok hi hrec]
  simp [decodeAll, decodeRequest, hn, hsz, hf, hmt]

/-- C4, at the example of the spec: in a five-file listing whose record at index 2 reports
size 4096, flags 1 and modification time 1700000000, `get_guest_file` with `size` = 108,
`modtime` = 116 and `flags` = 124 stores 4096 at 108, 1 at 124 and 1700000000 at 116. -/
theorem get_guest_file_pairs_like_named_witness :
    (get_guest_file specVix 7 2 100 108 116 124 fiveFiles).1 =
      ⟨VIX_OK, [(.mem 100, 1200), (.mem 108, 4096), (.mem 124, 1), (.mem 116, 1700000000)]⟩ :=
  (get_guest_file_pairs_like_named 7 2 100 108 116 124).2 fiveFiles
    ⟨VIX_OK, [],
      [fileRecord 1000 10 0 1600000000, fileRecord 1100 20 0 1600000001,
       fileRecord 1200 4096 1 1700000000, fileRecord 1300 30 0 1600000003,
       fileRecord 1400 40 0 1600000004]⟩
    (fileRecord 1200 4096 1 1700000000) 1200 4096 1 1700000000
    rfl rfl (by decide) rfl rfl rfl rfl rfl

theorem decodeAll_fileFields (record : Bag) (name size modtime flags : Addr)
    (h : record.hasAll fileFields = true) :
    (decodeAll record
      [.prop VIX_PROPERTY_JOB_RESULT_ITEM_NAME, .out .char (.mem name),
       .prop VIX_PROPERTY_JOB_RESULT_FILE_SIZE, .out .int64 (.mem size),
       .prop VIX_PROPERTY_JOB_RESULT_FILE_FLAGS, .out .int (.mem flags),
       .prop VIX_PROPERTY_JOB_RESULT_FILE_MOD_TIME, .out .int64 (.mem modtime),
       .prop VIX_PROPERTY_NONE]).err = VIX_OK := by
  simp only [Bag.hasAll, fileFields, List.all_cons, List.all_nil, Bool.and_true,
    Bool.and_eq_true, Option.isSome_iff_exists] at h
  obtain ⟨⟨n, hn⟩, ⟨sz, hsz⟩, ⟨f, hf⟩, ⟨mt, hmt⟩⟩ := h
  simp [decodeAll, decodeRequest, hn, hsz, hf, hmt]

theorem decodeAll_processFields (record : Bag)
    (name pid owner cmdline is_debugged start_time : Addr)
    (h : record.hasAll processFields = true) :
    (decodeAll record
      [.prop VIX_PROPERTY_JOB_RESULT_ITEM_NAME, .out .char (.mem name),
       .prop VIX_PROPERTY_JOB_RESULT_PROCESS_ID, .out .uint64 (.mem pid),
       .prop VIX_PROPERTY_JOB_RESULT_PROCESS_OWNER, .out .char (.mem owner),
       .prop VIX_PROPERTY_JOB_RESULT_PROCESS_COMMAND, .out .char (.mem cmdline),
       .prop VIX_PROPERTY_JOB_RESULT_PROCESS_BEING_DEBUGGED, .out .bool (.mem is_debugged),
       .prop VIX_PROPERTY_JOB_RESULT_PROCESS_START_TIME, .out .int (.mem start_time),
       .prop VIX_PROPERTY_NONE]).err = VIX_OK := by
  simp only [Bag.hasAll, processFields, List.all_cons, List.all_nil, Bool.and_true,
    Bool.and_eq_true, Option.isSome_iff_exists] at h
  obtain ⟨⟨n, hn⟩, ⟨p, hp⟩, ⟨o, ho⟩, ⟨c, hc⟩, ⟨d, hd⟩, ⟨t, ht⟩⟩ := h
  simp [decodeAll, decodeRequest, hn, hp, ho, hc, hd, ht]

theorem classify_invalid_arg : classify VIX_E_INVALID_ARG = ErrorKind.IndexOutOfRange := by
  decide

/-- C6: over the engine of the spec, for a successful file listing of `N` records and a
successful process listing of `M` records, each record having the fields of its listing,
`get_guest_file` succeeds for every index `0 <= i < N` and `get_guest_process` for every
`0 <= i < M`; for every index outside the range, in particular `N` (resp. `M`) and `-1`,
they fail with a code classified `IndexOutOfRange` and store nothing. -/
theorem indexed_decoders_index_range (E : Engine) (hF hP : VixHandle) (files procs : Job)
    (hfiles : E.lookup hF = some files) (hprocs : E.lookup hP = some procs)
    (hokF : files.status = VIX_OK) (hokP : procs.status = VIX_OK)
    (hshapeF : ∀ r ∈ files.records, r.hasAll fileFields = true)
    (hshapeP : ∀ r ∈ procs.records, r.hasAll processFields = true)
    (name size modtime flags pid owner cmdline is_debugged start_time : Addr) :
    (∀ i : Int, 0 ≤ i → i < files.records.length →
      (get_guest_file specVix hF i name size modtime flags E).1.err = VIX_OK) ∧
    (∀ i : Int, 0 ≤ i → i < procs.records.length →
      (get_guest_process specVix hP i name pid owner cmdline is_debugged start_time E).1.err =
        VIX_OK) ∧
    (∀ i : Int, i < 0 ∨ (files.records.length : Int) ≤ i →
      classify (get_guest_file specVix hF i name size modtime flags E).1.err =
          ErrorKind.IndexOutOfRange ∧
        (get_guest_file specVix hF i name size modtime flags E).1.stores = []) ∧
    (∀ i : Int, i < 0 ∨ (procs.records.length : Int) ≤ i →
      classify
          (get_guest_process specVix hP i name pid owner cmdline is_debugged start_time
            E).1.err = ErrorKind.IndexOutOfRange ∧
        (get_guest_process specVix hP i name pid owner cmdline is_debugged start_time
          E).1.stores = []) ∧
    classify (get_guest_file specVix hF files.records.length name size modtime flags E).1.err =
      ErrorKind.IndexOutOfRange ∧
    classify (get_guest_file specVix hF (-1) name size modtime flags E).1.err =
      ErrorKind.IndexOutOfRange ∧
    classify
        (get_guest_process specVix hP procs.records.length name pid owner cmdline is_debugged
          start_time E).1.err = ErrorKind.IndexOutOfRange ∧
    classify
        (get_guest_process specVix hP (-1) name pid owner cmdline is_debugged start_time
          E).1.err = ErrorKind.IndexOutOfRange := by
  have inF : ∀ i : Int, 0 ≤ i → i < files.records.length →
      (get_guest_file specVix hF i name size modtime flags E).1.err = VIX_OK := by
    intro i h0 hlt
    have hlt' : i.toNat < files.records.length := by omega
    have hrec : files.records.get? i.toNat = some (files.records.get ⟨i.toNat, hlt'⟩) :=
      List.get?_eq_get hlt'
    simp only [get_guest_file, specVix]
    rw [specGetNth_in_range E hF files i _ _ hfiles hokF h0 hrec]
    exact decodeAll_fileFields _ _ _ _ _ (hshapeF _ (List.get_mem _ _ _))
  have inP : ∀ i : Int, 0 ≤ i → i < procs.records.length →
      (get_guest_process specVix hP i name pid owner cmdline is_debugged start_time E).1.err =
        VIX_OK := by
    intro i h0 hlt
    have hlt' : i.toNat < procs.records.length := by omega
    have hrec : procs.records.get? i.toNat = some (procs.records.get ⟨i.toNat, hlt'⟩) :=
      List.get?_eq_get hlt'
    simp only [get_guest_process, specVix]
    rw [specGetNth_in_range E hP procs i _ _ hprocs hokP h0 hrec]
    exact decodeAll_processFields _ _ _ _ _ _ _ (hshapeP _ (List.get_mem _ _ _))
  have outF : ∀ i : Int, i < 0 ∨ (files.records.length : Int) ≤ i →
      classify (get_guest_file specVix hF i name size modtime flags E).1.err =
          ErrorKind.IndexOutOfRange ∧
        (get_guest_file specVix hF i name size modtime flags E).1.stores = [] := by
    intro i hi
    simp only [get_guest_file, specVix]
    rw [specGetNth_out_of_range E hF files i _ hfiles hokF hi]
    exact ⟨classify_invalid_arg, rfl⟩
  have outP : ∀ i : Int, i < 0 ∨ (procs.records.length : Int) ≤ i →
      classify
          (get_guest_process specVix hP i name pid owner cmdline is_debugged start_time
            E).1.err = ErrorKind.IndexOutOfRange ∧
        (get_guest_process specVix hP i name pid owner cmdline is_debugged start_time
          E).1.stores = [] := by
    intro i hi
    simp only [get_guest_process, specVix]
    rw [specGetNth_out_of_range E hP procs i _ hprocs hokP hi]
    exact ⟨classify_invalid_arg, rfl⟩
  exact ⟨inF, inP, outF, outP, (outF _ (Or.inr (le_refl _))).1, (outF _ (Or.inl (by decide))).1,
    (outP _ (Or.inr (le_refl _))).1, (outP _ (Or.inl (by decide))).1⟩

/-- C6, at the example of the spec: in the five-file listing, index 4 succeeds and index 5
fails with `IndexOutOfRange`; in the two-process listing, index 1 succeeds and index 2
fails with `IndexOutOfRange`. -/
theorem indexed_decoders_index_range_witness :
    (get_guest_file specVix 7 4 100 108 116 124 (fiveFiles ++ twoProcesses)).1.err = VIX_OK ∧
    classify (get_guest_file specVix 7 5 100 108 116 124 (fiveFiles ++ twoProcesses)).1.err =
      ErrorKind.IndexOutOfRange ∧
    (get_guest_process specVix 9 1 100 132 140 148 156 160
      (fiveFiles ++ twoProcesses)).1.err = VIX_OK ∧
    classify (get_guest_process specVix 9 2 100 132 140 148 156 160
      (fiveFiles ++ twoProcesses)).1.err = ErrorKind.IndexOutOfRange :=
  have h := indexed_decoders_index_range (fiveFiles ++ twoProcesses) 7 9
    ⟨VIX_OK, [],
      [fileRecord 1000 10 0 1600000000, fileRecord 1100 20 0 1600000001,
       fileRecord 1200 4096 1 1700000000, fileRecord 1300 30 0 1600000003,
       fileRecord 1400 40 0 1600000004]⟩
    ⟨VIX_OK, [],
      [processRecord 2000 1 2100 2200 0 1600000000,
       processRecord 3000 4294967296 3100 3200 1 1600000001]⟩
    rfl rfl rfl rfl (by decide) (by decide) 100 108 116 124 132 140 148 156 160
  ⟨h.1 4 (by decide) (by decide), h.2.2.2.2.1, h.2.1 1 (by decide) (by decide),
    h.2.2.2.2.2.2.1⟩

end Decoders

/-! ## Slot widths -/

section Widths

theorem hold_int64 (v : Int) (hlo : -2 ^ 63 ≤ v) (hhi : v < 2 ^ 63) :
    CType.hold .int64 v = v := by
  simp only [CType.hold, CType.signed, CType.bits, if_true]
  norm_num
  omega

theorem hold_uint64 (v : Int) (hlo : 0 ≤ v) (hhi : v < 2 ^ 64) :
    CType.hold .uint64 v = v := by
  simp only [CType.hold, CType.signed, CType.bits]
  norm_num
  omega

theorem hold_int (v : Int) (hlo : -2 ^ 31 ≤ v) (hhi : v < 2 ^ 31) :
    CType.hold .int v = v := by
  simp only [CType.hold, CType.signed, CType.bits, if_true]
  norm_num
  omega

/-- C7, as amended: over any native layer, in the one request each helper issues, file
size and file modification time (`get_file_info`, `get_guest_file`) are paired with
`int64` slots and the process id (`get_program_output`, `get_guest_process`) with a
`uint64` slot, so every value of the 64-bit range of the slot is read back unchanged;
the process start time of `get_guest_process` is paired with an `int` slot, which reads
back unchanged the values of the 32-bit range. -/
theorem sized_fields_slot_widths (σ : Type) (N : Vix σ) (s : σ) (jobHandle : VixHandle)
    (i : Int) (fsize flags modtime name size pid elapsedTime exitCode owner cmdline
      is_debugged start_time : Addr) :
    (∀ v : Int, -2 ^ 63 ≤ v → v < 2 ^ 63 →
      deliveredVia
          (requestArgs (get_file_info N.traced jobHandle fsize flags modtime (s, [])).2.2)
          VIX_PROPERTY_JOB_RESULT_FILE_SIZE v = some v ∧
      deliveredVia
          (requestArgs (get_file_info N.traced jobHandle fsize flags modtime (s, [])).2.2)
          VIX_PROPERTY_JOB_RESULT_FILE_MOD_TIME v = some v ∧
      deliveredVia
          (requestArgs
            (get_guest_file N.traced jobHandle i name size modtime flags (s, [])).2.2)
          VIX_PROPERTY_JOB_RESULT_FILE_SIZE v = some v ∧
      deliveredVia
          (requestArgs
            (get_guest_file N.traced jobHandle i name size modtime flags (s, [])).2.2)
          VIX_PROPERTY_JOB_RESULT_FILE_MOD_TIME v = some v) ∧
    (∀ v : Int, 0 ≤ v → v < 2 ^ 64 →
      deliveredVia
          (requestArgs
            (get_program_output N.traced jobHandle pid elapsedTime exitCode (s, [])).2.2)
          VIX_PROPERTY_JOB_RESULT_PROCESS_ID v = some v ∧
      deliveredVia
          (requestArgs
            (get_guest_process N.traced jobHandle i name pid owner cmdline is_debugged
              start_time (s, [])).2.2)
          VIX_PROPERTY_JOB_RESULT_PROCESS_ID v = some v) ∧
    slotOf
        (requestArgs
          (get_guest_process N.traced jobHandle i name pid owner cmdline is_debugged
            start_time (s, [])).2.2)
        VIX_PROPERTY_JOB_RESULT_PROCESS_START_TIME = some CType.int ∧
    (∀ v : Int, -2 ^ 31 ≤ v → v < 2 ^ 31 →
      deliveredVia
          (requestArgs
            (get_guest_process N.traced jobHandle i name pid owner cmdline is_debugged
              start_time (s, [])).2.2)
          VIX_PROPERTY_JOB_RESULT_PROCESS_START_TIME v = some v) := by
  refine ⟨?_, ?_, ?_, ?_⟩
  · intro v hlo hhi
    have h := hold_int64 v hlo hhi
    simp [deliveredVia, requestArgs, slotOf, get_file_info, get_guest_file, Vix.traced, h]
  · intro v hlo hhi
    have h := hold_uint64 v hlo hhi
    simp [deliveredVia, requestArgs, slotOf, get_program_output, get_guest_process,
      Vix.traced, h]
  · simp [requestArgs, slotOf, get_guest_process, Vix.traced]
  · intro v hlo hhi
    have h := hold_int v hlo hhi
    simp [deliveredVia, requestArgs, slotOf, get_guest_process, Vix.traced, h]

/-- C7, as amended, at concrete values: a file size of 2^40 and a process id of 2^63 are
read back unchanged, and so is a start time of 1600000000. -/
theorem sized_fields_slot_widths_witness :
    deliveredVia
        (requestArgs
          (get_file_info (constVix ⟨VIX_OK, []⟩ none).traced 7 100 108 116 ((), [])).2.2)
        VIX_PROPERTY_JOB_RESULT_FILE_SIZE 1099511627776 = some 1099511627776 ∧
    deliveredVia
        (requestArgs
          (get_guest_process (constVix ⟨VIX_OK, []⟩ none).traced 9 0 100 132 140 148 156 160
            ((), [])).2.2)
        VIX_PROPERTY_JOB_RESULT_PROCESS_ID 9223372036854775808 =
      some 9223372036854775808 ∧
    deliveredVia
        (requestArgs
          (get_guest_process (constVix ⟨VIX_OK, []⟩ none).traced 9 0 100 132 140 148 156 160
            ((), [])).2.2)
        VIX_PROPERTY_JOB_RESULT_PROCESS_START_TIME 1600000000 = some 1600000000 :=
  have h := sized_fields_slot_widths Unit (constVix ⟨VIX_OK, []⟩ none) () 7 0
    100 108 116 100 108 132 0 0 140 148 156 160
  have h9 := sized_fields_slot_widths Unit (constVix ⟨VIX_OK, []⟩ none) () 9 0
    100 108 116 100 108 132 0 0 140 148 156 160
  ⟨(h.1 1099511627776 (by norm_num) (by norm_num)).1,
   (h9.2.1 9223372036854775808 (by norm_num) (by norm_num)).2,
   h9.2.2.2 1600000000 (by norm_num) (by norm_num)⟩

/-- C7, as stated, fails for the process start time: `get_guest_process` pairs it with an
`int` slot, and the 64-bit value 2^32 delivered to that slot reads back as 0. -/
theorem get_guest_process_start_time_is_32_bit :
    deliveredVia
        (requestArgs
          (get_guest_process (constVix ⟨VIX_OK, []⟩ none).traced 9 0 100 132 140 148 156 160
            ((), [])).2.2)
        VIX_PROPERTY_JOB_RESULT_PROCESS_START_TIME 4294967296 = some 0 ∧
    deliveredVia
        (requestArgs
          (get_guest_process (constVix ⟨VIX_OK, []⟩ none).traced 9 0 100 132 140 148 156 160
            ((), [])).2.2)
        VIX_PROPERTY_JOB_RESULT_PROCESS_START_TIME 4294967296 ≠ some 4294967296 := by
  have h : deliveredVia
      (requestArgs
        (get_guest_process (constVix ⟨VIX_OK, []⟩ none).traced 9 0 100 132 140 148 156 160
          ((), [])).2.2)
      VIX_PROPERTY_JOB_RESULT_PROCESS_START_TIME 4294967296 = some 0 := by
    simp [deliveredVia, requestArgs, slotOf, get_guest_process, Vix.traced, constVix,
      CType.hold, CType.signed, CType.bits]
  refine ⟨h, ?_⟩
  rw [h]
  decide

end Widths

/-! ## The wait wrappers -/

section Wrappers

/-- C8, as amended: over any native layer each of the nine wait wrappers issues exactly
one `VixJob_Wait` on the handle it was given and hands back that request's result
unchanged.  For `vix_job_wait`, `get_num_shared_folders`, `read_variable`,
`get_temp_filepath`, `is_file_or_dir`, `get_program_output` and `get_shared_folder` the
arguments are (identifier, output pointer) pairs closed by `VIX_PROPERTY_NONE`.
`get_screenshot_bytes` closes its list with `VIX_PROPERTY_NONE` too, its one identifier
being followed by two output pointers (byte count, image data).  `get_vix_handle` closes
its list with the caller's `prop2`, so its list is terminated exactly when the caller
passes `VIX_PROPERTY_NONE` there. -/
theorem wait_wrappers_single_request (σ : Type) (N : Vix σ) (jobHandle : VixHandle)
    (prop1 prop2 : VixPropertyID)
    (handle byte_count screen_bits numSharedFolders readValue tempFilePath result pid
      elapsedTime exitCode folderName folderHostPath folderFlags : Addr) :
    (∃ args, IsSingleWait N (vix_job_wait N.traced jobHandle) jobHandle args ∧
      pairsThenNone args = true) ∧
    (∃ args, IsSingleWait N (get_num_shared_folders N.traced jobHandle numSharedFolders)
        jobHandle args ∧ pairsThenNone args = true) ∧
    (∃ args, IsSingleWait N (read_variable N.traced jobHandle readValue) jobHandle args ∧
      pairsThenNone args = true) ∧
    (∃ args, IsSingleWait N (get_temp_filepath N.traced jobHandle tempFilePath) jobHandle
        args ∧ pairsThenNone args = true) ∧
    (∃ args, IsSingleWait N (is_file_or_dir N.traced jobHandle result) jobHandle args ∧
      pairsThenNone args = true) ∧
    (∃ args, IsSingleWait N (get_program_output N.traced jobHandle pid elapsedTime exitCode)
        jobHandle args ∧ pairsThenNone args = true) ∧
    (∃ args, IsSingleWait N
        (get_shared_folder N.traced jobHandle folderName folderHostPath folderFlags)
        jobHandle args ∧ pairsThenNone args = true) ∧
    IsSingleWait N (get_screenshot_bytes N.traced jobHandle byte_count screen_bits) jobHandle
      [.prop VIX_PROPERTY_JOB_RESULT_SCREEN_IMAGE_DATA,
       .out .int (.mem byte_count), .out .char (.mem screen_bits),
       .prop VIX_PROPERTY_NONE] ∧
    IsSingleWait N (get_vix_handle N.traced jobHandle prop1 handle prop2) jobHandle
      [.prop prop1, .out .handle (.mem handle), .prop prop2] ∧
    (pairsThenNone [.prop prop1, .out .handle (.mem handle), .prop prop2] = true ↔
      prop2 = VIX_PROPERTY_NONE) := by
  refine ⟨⟨_, fun s log => rfl, ?_⟩, ⟨_, fun s log => rfl, ?_⟩, ⟨_, fun s log => rfl, ?_⟩,
    ⟨_, fun s log => rfl, ?_⟩, ⟨_, fun s log => rfl, ?_⟩, ⟨_, fun s log => rfl, ?_⟩,
    ⟨_, fun s log => rfl, ?_⟩, fun s log => rfl, fun s log => rfl, ?_⟩
  all_goals simp [pairsThenNone]

/-- C8, as amended, at a concrete call: `get_vix_handle` asked for the result handle with
`VIX_PROPERTY_NONE` as `prop2` issues a terminated list of pairs. -/
theorem wait_wrappers_single_request_witness :
    pairsThenNone
      [.prop VIX_PROPERTY_JOB_RESULT_HANDLE, .out .handle (.mem 100),
       .prop VIX_PROPERTY_NONE] = true :=
  (wait_wrappers_single_request Unit (constVix ⟨VIX_OK, []⟩ none) 7
    VIX_PROPERTY_JOB_RESULT_HANDLE VIX_PROPERTY_NONE
    100 0 0 0 0 0 0 0 0 0 0 0 0).2.2.2.2.2.2.2.2.2.mpr rfl

/-- C8, as stated, fails: `get_vix_handle` called with `prop2` other than
`VIX_PROPERTY_NONE` hands the wait primitive a list that does not end with the terminator,
and the list of `get_screenshot_bytes` is not made of (identifier, pointer) pairs. -/
theorem get_vix_handle_terminator_is_callers :
    (get_vix_handle (constVix ⟨VIX_OK, []⟩ none).traced 7 VIX_PROPERTY_JOB_RESULT_HANDLE 100
        VIX_PROPERTY_JOB_RESULT_HANDLE ((), [])).2.2 =
      [Call.VixJob_Wait 7
        [.prop VIX_PROPERTY_JOB_RESULT_HANDLE, .out .handle (.mem 100),
         .prop VIX_PROPERTY_JOB_RESULT_HANDLE]] ∧
    (requestArgs
      (get_vix_handle (constVix ⟨VIX_OK, []⟩ none).traced 7 VIX_PROPERTY_JOB_RESULT_HANDLE 100
        VIX_PROPERTY_JOB_RESULT_HANDLE ((), [])).2.2).getLast? ≠
      some (.prop VIX_PROPERTY_NONE) ∧
    pairsThenNone
      (requestArgs
        (get_vix_handle (constVix ⟨VIX_OK, []⟩ none).traced 7 VIX_PROPERTY_JOB_RESULT_HANDLE
          100 VIX_PROPERTY_JOB_RESULT_HANDLE ((), [])).2.2) = false ∧
    pairsThenNone
      (requestArgs
        (get_screenshot_bytes (constVix ⟨VIX_OK, []⟩ none).traced 7 100 108
          ((), [])).2.2) = false := by
  refine ⟨rfl, ?_, ?_, ?_⟩
  · simp [requestArgs, get_vix_handle, Vix.traced, constVix]
  · simp [requestArgs, get_vix_handle, Vix.traced, constVix, pairsThenNone]
  · simp [requestArgs, get_screenshot_bytes, Vix.traced, constVix, pairsThenNone]

end Wrappers

end Govix
